import Mathlib

set_option linter.unusedVariables false
set_option maxRecDepth 100000

/-!
Shallow embedding of the HERMES agent framework (hermes/agents/*.py) and
verification of its specification claims.

Conventions of the embedding:
* Python runtime values that flow through configuration validation are
  modelled by `PyVal`; Python `bool` counts as numeric, as in CPython where
  `isinstance(True, int)` holds.
* SQLite `REAL` arithmetic is modelled by exact rationals `ℚ`.
* Python dicts appearing as data payloads are association lists
  `List (String × PyVal)`.
-/

namespace Hermes

/-- A Python value as it can appear in an agent-configuration field. -/
inductive PyVal where
  | vInt (n : Int)
  | vFloat (q : ℚ)
  | vBool (b : Bool)
  | vStr (s : String)
  | vNone
  | vDict (entries : List (String × PyVal))
  | vList (items : List PyVal)
deriving Repr

/-- `isinstance(v, (int, float))` — CPython counts `bool` as `int`. -/
def PyVal.isNumeric : PyVal → Bool
  | .vInt _ => true
  | .vFloat _ => true
  | .vBool _ => true
  | _ => false

/-- Numeric value of a `PyVal` (only meaningful when `isNumeric`). -/
def PyVal.toQ : PyVal → ℚ
  | .vInt n => (n : ℚ)
  | .vFloat q => q
  | .vBool b => if b then 1 else 0
  | _ => 0

/-- Fractional decimal digits of a rational in `[0,1)`, with fuel. -/
def decimalFracDigits : Nat → ℚ → String
  | 0, _ => ""
  | fuel + 1, q =>
    if q = 0 then ""
    else
      let q10 := q * 10
      let d : Int := q10.floor
      toString d ++ decimalFracDigits fuel (q10 - (d : ℚ))

/-- Models CPython `str()` of a float with a finite decimal expansion. -/
def floatStr (q : ℚ) : String :=
  let a := |q|
  let i : Int := a.floor
  let frac := a - (i : ℚ)
  let core :=
    if frac = 0 then toString i ++ ".0"
    else toString i ++ "." ++ decimalFracDigits 30 frac
  if q < 0 then "-" ++ core else core

/-- Models CPython `str()` as used inside the guardrail f-strings. -/
def PyVal.pyStr : PyVal → String
  | .vInt n => toString n
  | .vFloat q => floatStr q
  | .vBool true => "True"
  | .vBool false => "False"
  | .vStr s => s
  | .vNone => "None"
  | .vDict _ => "<dict>"
  | .vList _ => "<list>"

/-- `dict.get(key, default)` on an association-list dict. -/
def dget (entries : List (String × PyVal)) (key : String) (dflt : PyVal) : PyVal :=
  match entries.lookup key with
  | some v => v
  | none => dflt

/-! ## Guardrails (hermes/agents/guardrails.py) -/

/-- `THRESHOLD_BOUNDS` from guardrails.py: field ↦ (lo, hi). The bounds keep
their Python types: ints except for `confidence`, whose bounds are floats. -/
def THRESHOLD_BOUNDS : List (String × PyVal × PyVal) :=
  [("max_emails_per_scan", .vInt 5, .vInt 200),
   ("max_emails", .vInt 5, .vInt 200),
   ("batch_size", .vInt 1, .vInt 50),
   ("hours_back", .vInt 1, .vInt 168),
   ("confidence", .vFloat (1 / 2), .vFloat 1),
   ("alert_on_count", .vInt 1, .vInt 100)]

def SCHEDULE_MIN_INTERVAL_MINUTES : ℚ := 5

def PROMPT_MAX_LENGTH : Nat := 5000

/-- `IMMUTABLE_AGENTS` from guardrails.py. -/
def IMMUTABLE_AGENTS : List String := ["director"]

/-- The rejection reason f-string of the threshold-bounds branch. -/
def boundsMsg (field : String) (lo hi nv : PyVal) : String :=
  field ++ " must be between " ++ lo.pyStr ++ " and " ++ hi.pyStr ++
    ", got " ++ nv.pyStr

/-- `Guardrails._validate_schedule`. The `minutes` comparison assumes a
numeric value, as the Python code does (a non-numeric `minutes` would raise
a `TypeError` there, outside the scope of the claims below). -/
def validate_schedule (schedule : List (String × PyVal)) : Bool × String :=
  let stype := dget schedule "type" (.vStr "")
  match stype with
  | .vStr s =>
    if s = "interval" then
      let minutes := dget schedule "minutes" (.vInt 0)
      if minutes.toQ < SCHEDULE_MIN_INTERVAL_MINUTES then
        (false, "Interval must be >= 5 minutes")
      else (true, "ok")
    else if s = "cron" then (true, "ok")
    else if s = "manual" then (true, "ok")
    else if s = "event" then (true, "ok")
    else (false, "Unknown schedule type: " ++ s)
  | other => (false, "Unknown schedule type: " ++ other.pyStr)

/-- The `field == "schedule"` branch and the final `return True, "ok"` of
`Guardrails.validate_config_change`. -/
def validate_schedule_field (field : String) (new_value : PyVal) : Bool × String :=
  if field = "schedule" then
    match new_value with
    | .vDict d =>
      let r := validate_schedule d
      if r.1 then (true, "ok") else (false, r.2)
    | _ => (true, "ok")
  else (true, "ok")

/-- The `field == "system_prompt"` branch of
`Guardrails.validate_config_change`, followed by the schedule branch.
`injectionHit` abstracts the fixed `_INJECTION_PATTERNS` regex set
(`re.search` over each pattern); the claims below hold for every
instantiation of it. -/
def validate_prompt_then_schedule (injectionHit : String → Bool)
    (field : String) (new_value : PyVal) : Bool × String :=
  if field = "system_prompt" then
    match new_value with
    | .vStr s =>
      if s.length > PROMPT_MAX_LENGTH then
        (false, "system_prompt exceeds 5000 chars")
      else if injectionHit s then
        (false, "system_prompt contains forbidden pattern")
      else validate_schedule_field field new_value
    | _ => (false, "system_prompt must be a string")
  else validate_schedule_field field new_value

/-- `Guardrails.validate_config_change(agent_id, field, old_value, new_value)`:
director-immutability check, then threshold bounds, then prompt and schedule
checks, then approve. -/
def validate_config_change (injectionHit : String → Bool)
    (agent_id field : String) (old_value new_value : PyVal) : Bool × String :=
  if agent_id ∈ IMMUTABLE_AGENTS then
    (false, "Agent '" ++ agent_id ++ "' config is immutable to self-modification")
  else
    match THRESHOLD_BOUNDS.lookup field with
    | some (lo, hi) =>
      if new_value.isNumeric ∧ (new_value.toQ < lo.toQ ∨ new_value.toQ > hi.toQ) then
        (false, boundsMsg field lo hi new_value)
      else validate_prompt_then_schedule injectionHit field new_value
    | none => validate_prompt_then_schedule injectionHit field new_value

/-! ### Helper lemmas about the bounds table -/

/-- Keys of the bounds table are distinct, so membership determines lookup. -/
lemma lookup_of_mem_bounds {field : String} {b : PyVal × PyVal}
    (h : (field, b) ∈ THRESHOLD_BOUNDS) :
    THRESHOLD_BOUNDS.lookup field = some b := by
  simp only [THRESHOLD_BOUNDS, List.mem_cons, List.not_mem_nil, or_false,
    Prod.mk.injEq] at h
  rcases h with ⟨h1, h2⟩ | ⟨h1, h2⟩ | ⟨h1, h2⟩ | ⟨h1, h2⟩ | ⟨h1, h2⟩ | ⟨h1, h2⟩ <;>
    subst h1 <;> subst h2 <;> rfl

/-- No bounds-table key is `system_prompt` or `schedule`. -/
lemma bounds_key_ne {field : String} {b : PyVal × PyVal}
    (h : (field, b) ∈ THRESHOLD_BOUNDS) :
    field ≠ "system_prompt" ∧ field ≠ "schedule" := by
  simp only [THRESHOLD_BOUNDS, List.mem_cons, List.not_mem_nil, or_false,
    Prod.mk.injEq] at h
  rcases h with ⟨h1, _⟩ | ⟨h1, _⟩ | ⟨h1, _⟩ | ⟨h1, _⟩ | ⟨h1, _⟩ | ⟨h1, _⟩ <;>
    subst h1 <;> exact ⟨by decide, by decide⟩

/-- For a bounds-table field, the post-threshold branches always approve. -/
lemma validate_prompt_then_schedule_bounds_field (injectionHit : String → Bool)
    {field : String} {b : PyVal × PyVal} (h : (field, b) ∈ THRESHOLD_BOUNDS)
    (nv : PyVal) :
    validate_prompt_then_schedule injectionHit field nv = (true, "ok") := by
  obtain ⟨h1, h2⟩ := bounds_key_ne h
  unfold validate_prompt_then_schedule validate_schedule_field
  rw [if_neg h1, if_neg h2]

/-- Claim C1: for a non-immutable agent and a bounded-threshold field with
bound `[lo, hi]`, a numeric new value is approved iff `lo ≤ v ≤ hi`
(boundaries included), and any numeric value strictly outside the bounds is
rejected with the reason naming the field and both bounds. -/
theorem threshold_bounds_approve_iff (injectionHit : String → Bool)
    (agent_id : String) (hagent : agent_id ∉ IMMUTABLE_AGENTS)
    (field : String) (lo hi : PyVal)
    (hfield : (field, lo, hi) ∈ THRESHOLD_BOUNDS)
    (old_value nv : PyVal) (hnum : nv.isNumeric = true) :
    ((validate_config_change injectionHit agent_id field old_value nv).1 = true ↔
      lo.toQ ≤ nv.toQ ∧ nv.toQ ≤ hi.toQ) ∧
    (nv.toQ < lo.toQ ∨ hi.toQ < nv.toQ →
      validate_config_change injectionHit agent_id field old_value nv =
        (false, boundsMsg field lo hi nv)) := by
  have hps := validate_prompt_then_schedule_bounds_field injectionHit hfield nv
  unfold validate_config_change
  rw [if_neg hagent]
  simp only [lookup_of_mem_bounds hfield]
  split_ifs with hcond
  · obtain ⟨-, hout⟩ := hcond
    constructor
    · constructor
      · intro h
        exact absurd h (by simp)
      · intro hin
        exfalso
        rcases hout with h | h
        · linarith [hin.1]
        · linarith [hin.2]
    · intro _
      rfl
  · have hnotout : ¬(nv.toQ < lo.toQ ∨ nv.toQ > hi.toQ) := fun hor =>
      hcond ⟨by simp [hnum], hor⟩
    push_neg at hnotout
    rw [hps]
    constructor
    · constructor
      · intro _
        exact hnotout
      · intro _
        rfl
    · intro hor
      exfalso
      rcases hor with h | h
      · linarith [hnotout.1]
      · linarith [hnotout.2]

/-- Witness for C1: `batch_size` has bound `[1, 50]`, so the numeric value 0
proposed for agent `triage` is rejected with the bounds-naming reason. -/
theorem threshold_bounds_approve_iff_witness :
    validate_config_change (fun _ => false) "triage" "batch_size"
        PyVal.vNone (PyVal.vInt 0) =
      (false, boundsMsg "batch_size" (PyVal.vInt 1) (PyVal.vInt 50) (PyVal.vInt 0)) :=
  (threshold_bounds_approve_iff (fun _ => false) "triage" (by decide)
      "batch_size" (PyVal.vInt 1) (PyVal.vInt 50) (by simp [THRESHOLD_BOUNDS])
      PyVal.vNone (PyVal.vInt 0) rfl).2
    (Or.inl (by norm_num [PyVal.toQ]))

/-- Claim C2: every proposed change to the Director's configuration is
rejected unconditionally, whatever the field and values. -/
theorem director_change_always_rejected (injectionHit : String → Bool)
    (field : String) (old_value new_value : PyVal) :
    validate_config_change injectionHit "director" field old_value new_value =
      (false, "Agent 'director' config is immutable to self-modification") := by
  unfold validate_config_change
  rw [if_pos (by simp [IMMUTABLE_AGENTS])]
  rfl

/-- Claim C10: for a non-immutable agent and a bounded-threshold field, a
non-numeric new value (a string, `None`, a dict, ...) is approved with
`(True, "ok")` — the `[lo, hi]` bound is only enforced on numeric values. -/
theorem nonnumeric_threshold_value_approved (injectionHit : String → Bool)
    (agent_id : String) (hagent : agent_id ∉ IMMUTABLE_AGENTS)
    (field : String) (lo hi : PyVal)
    (hfield : (field, lo, hi) ∈ THRESHOLD_BOUNDS)
    (old_value nv : PyVal) (hnum : nv.isNumeric = false) :
    validate_config_change injectionHit agent_id field old_value nv =
      (true, "ok") := by
  unfold validate_config_change
  rw [if_neg hagent]
  simp only [lookup_of_mem_bounds hfield]
  rw [if_neg (by simp [hnum])]
  exact validate_prompt_then_schedule_bounds_field injectionHit hfield nv

/-- Witness for C10: the string `"9999"` proposed for the bounded field
`batch_size` of agent `triage` passes the guardrail unchecked. -/
theorem nonnumeric_threshold_value_approved_witness :
    validate_config_change (fun _ => false) "triage" "batch_size"
        PyVal.vNone (PyVal.vStr "9999") = (true, "ok") :=
  nonnumeric_threshold_value_approved (fun _ => false) "triage" (by decide)
    "batch_size" (PyVal.vInt 1) (PyVal.vInt 50) (by simp [THRESHOLD_BOUNDS])
    PyVal.vNone (PyVal.vStr "9999") rfl

/-! ## Base agent (hermes/agents/base.py) -/

/-- The `AgentResult` dataclass, with its field defaults. -/
structure AgentResult where
  success : Bool
  data : List (String × PyVal) := []
  emails_processed : Nat := 0
  actions_taken : List String := []
  execution_time_ms : Int := 0
  error : Option String := none
deriving Repr

/-- The `AgentConfig` dataclass, with its field defaults. -/
structure AgentConfig where
  agent_id : String
  version : Int := 1
  enabled : Bool := true
  display_name : String := ""
  system_prompt : String := ""
  thresholds : List (String × PyVal) := []
  weights : List (String × PyVal) := []
  schedule : List (String × PyVal) := []
  metadata : List (String × PyVal) := []
deriving Repr

/-- Outcome of a call to the abstract `execute()`: a Python method either
returns normally or raises an exception, here carrying its `str(e)` text. -/
inductive ExecOutcome where
  | ok (r : AgentResult)
  | raises (msg : String)

/-- `BaseAgent.run`: wraps `execute()` with timing and exception
containment. `elapsed_ms` abstracts `int((time.time() - start) * 1000)`. -/
def run (outcome : ExecOutcome) (elapsed_ms : Int) : AgentResult :=
  match outcome with
  | .raises msg =>
    { success := false, error := some msg, execution_time_ms := elapsed_ms }
  | .ok r => { r with execution_time_ms := elapsed_ms }

/-- Claim C3: `run()` never raises — for every behaviour of `execute()` it
returns an `AgentResult` whose elapsed time is recorded; an exception is
converted into a failed result carrying the exception text, and a normal
result is passed through with its execution time filled in. -/
theorem run_contains_exceptions (outcome : ExecOutcome) (elapsed_ms : Int) :
    ((run outcome elapsed_ms).execution_time_ms = elapsed_ms) ∧
    (∀ msg, outcome = .raises msg →
      run outcome elapsed_ms =
        { success := false, error := some msg, execution_time_ms := elapsed_ms }) ∧
    (∀ r, outcome = .ok r →
      run outcome elapsed_ms = { r with execution_time_ms := elapsed_ms }) := by
  refine ⟨?_, ?_, ?_⟩
  · cases outcome <;> rfl
  · intro msg h
    subst h
    rfl
  · intro r h
    subst h
    rfl

/-- Witness for C3: a raising `execute()` yields a failed result with the
exception text and the elapsed time. -/
theorem run_contains_exceptions_witness :
    run (ExecOutcome.raises "boom") 7 =
      { success := false, error := some "boom", execution_time_ms := 7 } :=
  (run_contains_exceptions (ExecOutcome.raises "boom") 7).2.1 "boom" rfl

/-- The slice of `BaseAgent` state that configuration saving touches. -/
structure BaseAgentState where
  agent_config : AgentConfig

/-- `BaseAgent.save_config(new_config=None)`: takes the argument or the
agent's current configuration (`new_config or self.agent_config`; dataclass
instances are always truthy), increments its version, writes it with
write-temp-then-rename (file I/O abstracted away), and installs it as the
agent's configuration. -/
def save_config (st : BaseAgentState) (new_config : Option AgentConfig) :
    BaseAgentState :=
  let cfg0 := new_config.getD st.agent_config
  let cfg := { cfg0 with version := cfg0.version + 1 }
  { st with agent_config := cfg }

/-- Claim C5: every `save_config` call leaves the version exactly one above
the version of the configuration passed in (or the current one when the
argument is omitted), the installed configuration carries that incremented
version, and consecutive saves keep incrementing by one each. -/
theorem save_config_increments_version (st : BaseAgentState)
    (new_config : Option AgentConfig) :
    (save_config st new_config).agent_config.version =
      (new_config.getD st.agent_config).version + 1 ∧
    (save_config st new_config).agent_config =
      { new_config.getD st.agent_config with
          version := (new_config.getD st.agent_config).version + 1 } ∧
    (save_config (save_config st new_config) none).agent_config.version =
      (new_config.getD st.agent_config).version + 2 := by
  refine ⟨rfl, rfl, ?_⟩
  show (new_config.getD st.agent_config).version + 1 + 1 =
    (new_config.getD st.agent_config).version + 2
  omega

/-! ## Daily metrics (hermes/agents/db.py, `update_daily_metrics`) -/

/-- One row of the `metrics` table; the SQLite `REAL` column `avg_time_ms`
is modelled as an exact rational. -/
structure MetricsRow where
  total_executions : Nat
  successful : Nat
  failed : Nat
  avg_time_ms : ℚ
  emails_processed : Int
deriving Repr

/-- The fields of the result payload that `update_daily_metrics` reads. -/
structure ResultPayload where
  success : Bool
  execution_time_ms : Int
  emails_processed : Int
deriving Repr

/-- `AgentDB.update_daily_metrics`: upsert of the (agent, UTC date) row;
`row` is `none` when no execution has been recorded that day yet. -/
def update_daily_metrics (row : Option MetricsRow) (result : ResultPayload) :
    MetricsRow :=
  let success : Nat := if result.success then 1 else 0
  match row with
  | some r =>
    let total := r.total_executions + 1
    let new_avg :=
      (r.avg_time_ms * (r.total_executions : ℚ) + (result.execution_time_ms : ℚ)) /
        (total : ℚ)
    { total_executions := total,
      successful := r.successful + success,
      failed := r.failed + (1 - success),
      avg_time_ms := new_avg,
      emails_processed := r.emails_processed + result.emails_processed }
  | none =>
    { total_executions := 1,
      successful := success,
      failed := 1 - success,
      avg_time_ms := (result.execution_time_ms : ℚ),
      emails_processed := result.emails_processed }

/-- A whole day of executions for one agent: each recorded execution upserts
the day's metrics row in order. -/
def run_day (results : List ResultPayload) : Option MetricsRow :=
  results.foldl (fun acc r => some (update_daily_metrics acc r)) none

/-- Folding further executions onto an existing row tracks the count and the
sum of durations (stated as `avg * count` to avoid division edge cases). -/
lemma run_day_invariant (l : List ResultPayload) (r0 : MetricsRow) :
    ∃ r, List.foldl (fun acc x => some (update_daily_metrics acc x)) (some r0) l
        = some r ∧
      r.total_executions = r0.total_executions + l.length ∧
      r.avg_time_ms * (r.total_executions : ℚ) =
        r0.avg_time_ms * (r0.total_executions : ℚ) +
          (l.map (fun x => (x.execution_time_ms : ℚ))).sum := by
  induction l generalizing r0 with
  | nil => exact ⟨r0, rfl, by simp, by simp⟩
  | cons x xs ih =>
    obtain ⟨r, hr, ht, ha⟩ := ih (update_daily_metrics (some r0) x)
    refine ⟨r, hr, ?_, ?_⟩
    · simp only [update_daily_metrics] at ht
      simp only [List.length_cons]
      omega
    · have hstep :
          (update_daily_metrics (some r0) x).avg_time_ms *
              ((update_daily_metrics (some r0) x).total_executions : ℚ) =
            r0.avg_time_ms * (r0.total_executions : ℚ) +
              (x.execution_time_ms : ℚ) := by
        simp only [update_daily_metrics]
        have hne : ((r0.total_executions + 1 : Nat) : ℚ) ≠ 0 := by
          push_cast
          positivity
        field_simp
      rw [ha, hstep]
      simp only [List.map_cons, List.sum_cons]
      ring

/-- Claim C4 as amended: the incremental update
`(oldAvg*oldCount + newDuration)/(oldCount+1)` is an exact incremental mean
algebraically — computed in exact arithmetic (the ℚ model above), after any
nonempty sequence of executions recorded on one day the stored
`avg_time_ms` equals the arithmetic mean of all the recorded
`execution_time_ms` values. (As actually computed in IEEE-754 binary64 the
stored double can differ from a batch recomputation in the final ulp; see
the counterexample below.) -/
theorem daily_metrics_avg_is_mean (results : List ResultPayload)
    (h : results ≠ []) :
    ∃ r, run_day results = some r ∧
      r.total_executions = results.length ∧
      r.avg_time_ms =
        (results.map (fun x => (x.execution_time_ms : ℚ))).sum /
          (results.length : ℚ) := by
  cases results with
  | nil => exact absurd rfl h
  | cons x xs =>
    obtain ⟨r, hr, ht, ha⟩ := run_day_invariant xs (update_daily_metrics none x)
    have ht' : r.total_executions = xs.length + 1 := by
      simp only [update_daily_metrics] at ht
      omega
    refine ⟨r, hr, ?_, ?_⟩
    · simp [ht']
    · have hsum : r.avg_time_ms * (r.total_executions : ℚ) =
          ((x :: xs).map (fun y => (y.execution_time_ms : ℚ))).sum := by
        rw [ha]
        simp only [update_daily_metrics, List.map_cons, List.sum_cons]
        push_cast
        ring
      have hne : ((x :: xs).length : ℚ) ≠ 0 := by
        simp only [List.length_cons]
        push_cast
        positivity
      rw [eq_div_iff hne]
      rw [← hsum, ht']
      simp

/-- Witness for C4: two executions of 100 ms and 50 ms average to 75 ms. -/
theorem daily_metrics_avg_is_mean_witness :
    ∃ r, run_day [⟨true, 100, 0⟩, ⟨false, 50, 0⟩] = some r ∧
      r.total_executions = 2 ∧
      r.avg_time_ms = (150 : ℚ) / 2 := by
  obtain ⟨r, h1, h2, h3⟩ :=
    daily_metrics_avg_is_mean [⟨true, 100, 0⟩, ⟨false, 50, 0⟩] (by simp)
  refine ⟨r, h1, h2, ?_⟩
  rw [h3]
  norm_num

/-!
### IEEE-754 binary64 model of the metrics arithmetic

`avg_time_ms` is a SQLite `REAL` — an IEEE-754 binary64 — and Python
evaluates `((avg * count) + duration) / total` in doubles, rounding after
every operation. The grid of binary64 values (in the normal range, ample
for millisecond magnitudes) is modelled exactly: a double is the rational
`m * 2^e` with `2^52 ≤ m < 2^53`, and each operation computes the exact
rational result and rounds it to the nearest grid point, ties to even.
Integer operands below `2^53` (counts, millisecond durations) convert to
binary64 exactly.
-/

/-- Fuel-bounded structural `⌊log₂ n⌋` (0 for `n = 0`). -/
def log2fuel : Nat → Nat → Nat
  | 0, _ => 0
  | fuel + 1, n => if n < 2 then 0 else log2fuel fuel (n / 2) + 1

/-- A non-negative binary64 value `m * 2^e`; after rounding the mantissa is
normalized into `[2^52, 2^53)` (or 0). The millisecond magnitudes of this
program stay far inside the normal range, so overflow, subnormals, and
negative values never arise on this code path. -/
structure F64 where
  m : Nat
  e : Int
deriving Repr, DecidableEq

/-- Numerator of the exact rational value of an `F64`. -/
def F64.num (v : F64) : Nat :=
  if 0 ≤ v.e then v.m * 2 ^ v.e.toNat else v.m

/-- Denominator of the exact rational value of an `F64` (a power of two). -/
def F64.den (v : F64) : Nat :=
  if 0 ≤ v.e then 1 else 2 ^ (-v.e).toNat

/-- The pair `(p * 2^max(0,-e), q * 2^max(0,e))`, so that `P/Q = (p/q)/2^e`:
used to compare `p/q` against the binade `[2^52 * 2^e, 2^53 * 2^e)` in pure
integer arithmetic. -/
def scaleBinade (e : Int) (p q : Nat) : Nat × Nat :=
  if 0 ≤ e then (p, q * 2 ^ e.toNat) else (p * 2 ^ (-e).toNat, q)

/-- Walks the exponent until `2^52 ≤ (p/q) / 2^e < 2^53` (for `p, q > 0`;
the fuel bounds the walk, ample for the magnitudes involved). -/
def normExpN : Nat → Int → Nat → Nat → Int
  | 0, e, _, _ => e
  | fuel + 1, e, p, q =>
    let s := scaleBinade e p q
    if s.1 < 4503599627370496 * s.2 then normExpN fuel (e - 1) p q
    else if 9007199254740992 * s.2 ≤ s.1 then normExpN fuel (e + 1) p q
    else e

/-- IEEE-754 round-to-nearest, ties-to-even of the exact rational `p / q`
onto the binary64 grid, in pure integer arithmetic: scale into the binade,
take quotient and remainder, and round the quotient on the half-remainder. -/
def round64N (p q : Nat) : F64 :=
  if p = 0 then ⟨0, 0⟩
  else
    let e0 : Int := (log2fuel 256 p : Int) - (log2fuel 256 q : Int) - 53
    let e := normExpN 400 e0 p q
    let s := scaleBinade e p q
    let m0 := s.1 / s.2
    let r := s.1 % s.2
    let m :=
      if 2 * r < s.2 then m0
      else if s.2 < 2 * r then m0 + 1
      else if m0 % 2 = 0 then m0 else m0 + 1
    ⟨m, e⟩

/-- The `avg_time_ms` recurrence of `update_daily_metrics` as Python
executes it in binary64: `((avg * count) + duration) / (count + 1)`, each
operation computing the exact rational result and rounding once (the
integer operands, below `2^53`, convert to binary64 exactly). -/
def f64update (avg : F64) (count : Nat) (d : Nat) : F64 :=
  let t1 := round64N (avg.num * count) avg.den
  let t2 := round64N (t1.num + d * t1.den) t1.den
  round64N t2.num (t2.den * (count + 1))

/-- The `avg_time_ms` REAL column over a day of recorded millisecond
durations: the first execution stores the duration (exactly representable),
each later one applies the incremental update in binary64. -/
def run_day_avg_f64 : F64 → Nat → List Nat → F64
  | avg, _, [] => avg
  | _, 0, d :: rest => run_day_avg_f64 (round64N d 1) 1 rest
  | avg, count + 1, d :: rest =>
    run_day_avg_f64 (f64update avg (count + 1) d) (count + 2) rest

/-- Counterexample to claim C4: for the day of millisecond durations
`[1627, 2478, 2294, 1493, 821, 3897, 3250, 667, 179, 2251, 3711, 949]` the
incrementally maintained binary64 `avg_time_ms` and the binary64 batch
recomputation of the mean from the raw executions are different doubles
(`1968.083333333333` vs `1968.0833333333333`, one ulp apart), so the
incremental update does not reproduce the batch mean bit-for-bit. -/
theorem incremental_mean_not_bitwise_batch :
    (run_day_avg_f64 ⟨0, 0⟩ 0
        [1627, 2478, 2294, 1493, 821, 3897, 3250, 667, 179, 2251, 3711, 949]).num *
      (round64N
        ([1627, 2478, 2294, 1493, 821, 3897, 3250, 667, 179, 2251, 3711, 949] :
          List Nat).sum
        ([1627, 2478, 2294, 1493, 821, 3897, 3250, 667, 179, 2251, 3711, 949] :
          List Nat).length).den ≠
    (round64N
        ([1627, 2478, 2294, 1493, 821, 3897, 3250, 667, 179, 2251, 3711, 949] :
          List Nat).sum
        ([1627, 2478, 2294, 1493, 821, 3897, 3250, 667, 179, 2251, 3711, 949] :
          List Nat).length).num *
      (run_day_avg_f64 ⟨0, 0⟩ 0
        [1627, 2478, 2294, 1493, 821, 3897, 3250, 667, 179, 2251, 3711, 949]).den ∧
    run_day_avg_f64 ⟨0, 0⟩ 0
        [1627, 2478, 2294, 1493, 821, 3897, 3250, 667, 179, 2251, 3711, 949] =
      ⟨8655722037728596, -42⟩ ∧
    round64N
        ([1627, 2478, 2294, 1493, 821, 3897, 3250, 667, 179, 2251, 3711, 949] :
          List Nat).sum
        ([1627, 2478, 2294, 1493, 821, 3897, 3250, 667, 179, 2251, 3711, 949] :
          List Nat).length = ⟨8655722037728597, -42⟩ := by
  refine ⟨?_, ?_, ?_⟩ <;> decide

/-! ## Learning manager (hermes/agents/learning.py) -/

def EVOLUTION_MIN_FEEDBACK : Nat := 5

/-- One row of the `feedback` table (the fields `propose_evolution` and
`mark_feedback_processed` read or write). -/
structure FeedbackRec where
  id : Nat
  agent_id : String
  feedback_type : String
  processed : Bool
deriving Repr, DecidableEq

/-- The feedback table of the agent database. -/
structure DBState where
  feedback : List FeedbackRec
deriving Repr, DecidableEq

/-- `AgentDB.get_unprocessed_feedback`: rows for the agent with
`processed = 0`, in insertion order. -/
def get_unprocessed_feedback (db : DBState) (agent_id : String) :
    List FeedbackRec :=
  db.feedback.filter (fun f => f.agent_id == agent_id && f.processed == false)

/-- `AgentDB.mark_feedback_processed`: sets `processed = 1` on every row
whose id is listed; an empty id list is a no-op. -/
def mark_feedback_processed (db : DBState) (ids : List Nat) : DBState :=
  if ids.isEmpty then db
  else
    ⟨db.feedback.map (fun f =>
      if f.id ∈ ids then { f with processed := true } else f)⟩

/-- An LLM evolution proposal as `propose_evolution` consumes it: `approve`
models the truthiness of `proposal.get("approve")` and `modified_change`
the dict `proposal.get("modified_change", {})`. -/
structure Proposal where
  approve : Bool
  modified_change : List (String × PyVal)

/-- Outcome of the `ai.evaluate_config_change` call: it either raises an
exception or returns `None` or a proposal dict. -/
inductive AIOutcome where
  | raises (msg : String)
  | returns (proposal : Option Proposal)

/-- The guardrail loop at the end of `propose_evolution`: fields are
validated in order and the first rejection aborts the whole change. -/
def change_fields_valid (injectionHit : String → Bool) (agent_id : String) :
    List (String × PyVal) → Bool
  | [] => true
  | (f, v) :: rest =>
    if (validate_config_change injectionHit agent_id f PyVal.vNone v).1 then
      change_fields_valid injectionHit agent_id rest
    else false

/-- `LearningManager.propose_evolution(agent_id)`, returning the proposed
change (or none) together with the database state after the call. The
context bundle assembled for the LLM is read-only; the LLM's answer is the
`ai` parameter. -/
def propose_evolution (injectionHit : String → Bool) (db : DBState)
    (registry : String → Option AgentConfig) (ai : AIOutcome)
    (agent_id : String) : Option (List (String × PyVal)) × DBState :=
  let feedback := get_unprocessed_feedback db agent_id
  if feedback.length < EVOLUTION_MIN_FEEDBACK then (none, db)
  else
    match registry agent_id with
    | none => (none, db)
    | some _ =>
      match ai with
      | .raises _ => (none, db)
      | .returns proposal =>
        let db2 := mark_feedback_processed db (feedback.map (fun f => f.id))
        match proposal with
        | none => (none, db2)
        | some p =>
          if p.approve = false then (none, db2)
          else if p.modified_change.isEmpty then (none, db2)
          else if change_fields_valid injectionHit agent_id p.modified_change then
            (some p.modified_change, db2)
          else (none, db2)

/-- A single rejected field makes the whole-change validation fail. -/
lemma change_fields_valid_eq_false (injectionHit : String → Bool)
    (agent_id : String) (l : List (String × PyVal)) (f : String) (v : PyVal)
    (hmem : (f, v) ∈ l)
    (hfail : (validate_config_change injectionHit agent_id f PyVal.vNone v).1
      = false) :
    change_fields_valid injectionHit agent_id l = false := by
  induction l with
  | nil => exact absurd hmem (List.not_mem_nil _)
  | cons hd tl ih =>
    obtain ⟨fh, vh⟩ := hd
    rcases List.mem_cons.mp hmem with heq | htl
    · obtain ⟨h1, h2⟩ := Prod.mk.injEq .. ▸ heq
      subst h1
      subst h2
      simp only [change_fields_valid]
      rw [hfail]
      simp
    · simp only [change_fields_valid]
      split_ifs with hok
      · exact ih htl
      · rfl

/-- Claim C6: `propose_evolution` returns none with no change to stored
state when the unprocessed feedback count is below 5; and when the
completion service approves a change, one field failing guardrail
validation makes the whole proposal return none. -/
theorem propose_evolution_gate (injectionHit : String → Bool) (db : DBState)
    (registry : String → Option AgentConfig) (ai : AIOutcome)
    (agent_id : String) :
    ((get_unprocessed_feedback db agent_id).length < EVOLUTION_MIN_FEEDBACK →
      propose_evolution injectionHit db registry ai agent_id = (none, db)) ∧
    (∀ p, ai = AIOutcome.returns (some p) →
      ∀ f v, (f, v) ∈ p.modified_change →
        (validate_config_change injectionHit agent_id f PyVal.vNone v).1
          = false →
        (propose_evolution injectionHit db registry ai agent_id).1 = none) := by
  constructor
  · intro hlt
    simp only [propose_evolution]
    rw [if_pos hlt]
  · intro p hai f v hmem hfail
    subst hai
    have hcfv := change_fields_valid_eq_false injectionHit agent_id
      p.modified_change f v hmem hfail
    by_cases hlt :
        (get_unprocessed_feedback db agent_id).length < EVOLUTION_MIN_FEEDBACK
    · simp [propose_evolution, hlt]
    · simp only [propose_evolution, if_neg hlt]
      cases hreg : registry agent_id with
      | none => rfl
      | some cfg =>
        by_cases hap : p.approve = false
        · simp [hap]
        · by_cases hemp : p.modified_change.isEmpty
          · simp [hap, hemp]
          · simp [hap, hemp, hcfv]

/-- Witness for C6: one sub-threshold-feedback call is a no-op returning
none, and a proposal containing an out-of-bounds `hours_back` is vetoed in
whole even though its other field is in bounds. -/
theorem propose_evolution_gate_witness :
    propose_evolution (fun _ => false) ⟨[⟨1, "triage", "thumbs_down", false⟩]⟩
        (fun _ => some { agent_id := "triage" })
        (AIOutcome.returns none) "triage" =
      (none, ⟨[⟨1, "triage", "thumbs_down", false⟩]⟩) ∧
    (propose_evolution (fun _ => false)
        ⟨[⟨1, "triage", "thumbs_down", false⟩, ⟨2, "triage", "thumbs_down", false⟩,
          ⟨3, "triage", "thumbs_down", false⟩, ⟨4, "triage", "thumbs_up", false⟩,
          ⟨5, "triage", "thumbs_down", false⟩]⟩
        (fun _ => some { agent_id := "triage" })
        (AIOutcome.returns (some ⟨true,
          [("batch_size", PyVal.vInt 5), ("hours_back", PyVal.vInt 500)]⟩))
        "triage").1 = none := by
  constructor
  · exact (propose_evolution_gate (fun _ => false)
      ⟨[⟨1, "triage", "thumbs_down", false⟩]⟩
      (fun _ => some { agent_id := "triage" })
      (AIOutcome.returns none) "triage").1 (by decide)
  · exact (propose_evolution_gate (fun _ => false)
      ⟨[⟨1, "triage", "thumbs_down", false⟩, ⟨2, "triage", "thumbs_down", false⟩,
        ⟨3, "triage", "thumbs_down", false⟩, ⟨4, "triage", "thumbs_up", false⟩,
        ⟨5, "triage", "thumbs_down", false⟩]⟩
      (fun _ => some { agent_id := "triage" })
      (AIOutcome.returns (some ⟨true,
        [("batch_size", PyVal.vInt 5), ("hours_back", PyVal.vInt 500)]⟩))
      "triage").2
      ⟨true, [("batch_size", PyVal.vInt 5), ("hours_back", PyVal.vInt 500)]⟩
      rfl "hours_back" (PyVal.vInt 500) (by simp) (by decide)

/-- Counterexample to claim C7: with five unprocessed feedback records for a
registered agent, an `ai.evaluate_config_change` call that raises makes
`propose_evolution` return none with the database unchanged — not one of
the consumed feedback records is marked processed. -/
theorem feedback_unmarked_when_ai_raises :
    (get_unprocessed_feedback
      ⟨[⟨1, "triage", "thumbs_down", false⟩, ⟨2, "triage", "thumbs_down", false⟩,
        ⟨3, "triage", "thumbs_down", false⟩, ⟨4, "triage", "thumbs_up", false⟩,
        ⟨5, "triage", "thumbs_down", false⟩]⟩ "triage").length = 5 ∧
    propose_evolution (fun _ => false)
      ⟨[⟨1, "triage", "thumbs_down", false⟩, ⟨2, "triage", "thumbs_down", false⟩,
        ⟨3, "triage", "thumbs_down", false⟩, ⟨4, "triage", "thumbs_up", false⟩,
        ⟨5, "triage", "thumbs_down", false⟩]⟩
      (fun _ => some { agent_id := "triage" })
      (AIOutcome.raises "llm timeout") "triage" =
    (none,
      ⟨[⟨1, "triage", "thumbs_down", false⟩, ⟨2, "triage", "thumbs_down", false⟩,
        ⟨3, "triage", "thumbs_down", false⟩, ⟨4, "triage", "thumbs_up", false⟩,
        ⟨5, "triage", "thumbs_down", false⟩]⟩) := by
  exact ⟨by decide, rfl⟩

/-- Marking never leaves a listed id unprocessed in the resulting table. -/
lemma mark_processed_spec (db : DBState) (ids : List Nat) :
    ∀ g ∈ (mark_feedback_processed db ids).feedback,
      g.id ∈ ids → g.processed = true := by
  intro g hg hid
  unfold mark_feedback_processed at hg
  by_cases hids : ids.isEmpty
  · rw [List.isEmpty_iff] at hids
    subst hids
    exact absurd hid (List.not_mem_nil _)
  · rw [if_neg hids] at hg
    simp only [List.mem_map] at hg
    obtain ⟨f, hf, hfg⟩ := hg
    by_cases hin : f.id ∈ ids
    · rw [if_pos hin] at hfg
      rw [← hfg]
    · rw [if_neg hin] at hfg
      subst hfg
      exact absurd hid hin

/-- Once past the gates, any normally-returning LLM call leaves the database
in the marked state, whatever the proposal contents. -/
lemma propose_evolution_db_after_returns (injectionHit : String → Bool)
    (db : DBState) (registry : String → Option AgentConfig)
    (proposal : Option Proposal) (agent_id : String)
    (hlen : ¬ (get_unprocessed_feedback db agent_id).length <
      EVOLUTION_MIN_FEEDBACK)
    (cfg : AgentConfig) (hreg : registry agent_id = some cfg) :
    (propose_evolution injectionHit db registry (AIOutcome.returns proposal)
        agent_id).2 =
      mark_feedback_processed db
        ((get_unprocessed_feedback db agent_id).map (fun f => f.id)) := by
  simp only [propose_evolution, if_neg hlen, hreg]
  cases proposal with
  | none => rfl
  | some p =>
    dsimp only
    split_ifs <;> rfl

/-- Claim C7 as amended: with at least 5 unprocessed feedback records for a
registered agent, every consumed record is marked processed whenever the
completion-service call returns normally (declines, empty change, or
guardrail-rejected change alike); but when the call raises, the function
returns none with the feedback left unmarked. -/
theorem feedback_marked_when_ai_returns (injectionHit : String → Bool)
    (db : DBState) (registry : String → Option AgentConfig)
    (proposal : Option Proposal) (agent_id : String) (cfg : AgentConfig)
    (hlen : EVOLUTION_MIN_FEEDBACK ≤
      (get_unprocessed_feedback db agent_id).length)
    (hreg : registry agent_id = some cfg) :
    (∀ g ∈ (propose_evolution injectionHit db registry
        (AIOutcome.returns proposal) agent_id).2.feedback,
      g.id ∈ (get_unprocessed_feedback db agent_id).map (fun f => f.id) →
        g.processed = true) ∧
    (∀ msg, propose_evolution injectionHit db registry (AIOutcome.raises msg)
        agent_id = (none, db)) := by
  have hnlt : ¬ (get_unprocessed_feedback db agent_id).length <
      EVOLUTION_MIN_FEEDBACK := not_lt.mpr hlen
  constructor
  · intro g hg hid
    rw [propose_evolution_db_after_returns injectionHit db registry proposal
      agent_id hnlt cfg hreg] at hg
    exact mark_processed_spec db _ g hg hid
  · intro msg
    simp only [propose_evolution, if_neg hnlt, hreg]

/-- Witness for the amended C7: after a declining LLM answer the consumed
record with id 1 sits in the table marked processed, and a raising LLM call
leaves the whole database unchanged. -/
theorem feedback_marked_when_ai_returns_witness :
    ((⟨1, "cleanup", "thumbs_down", true⟩ : FeedbackRec) ∈
      (propose_evolution (fun _ => false)
        ⟨[⟨1, "cleanup", "thumbs_down", false⟩, ⟨2, "cleanup", "thumbs_down", false⟩,
          ⟨3, "cleanup", "thumbs_down", false⟩, ⟨4, "cleanup", "thumbs_up", false⟩,
          ⟨5, "cleanup", "thumbs_down", false⟩]⟩
        (fun _ => some { agent_id := "cleanup" })
        (AIOutcome.returns none) "cleanup").2.feedback ∧
      FeedbackRec.processed ⟨1, "cleanup", "thumbs_down", true⟩ = true) ∧
    propose_evolution (fun _ => false)
      ⟨[⟨1, "cleanup", "thumbs_down", false⟩, ⟨2, "cleanup", "thumbs_down", false⟩,
        ⟨3, "cleanup", "thumbs_down", false⟩, ⟨4, "cleanup", "thumbs_up", false⟩,
        ⟨5, "cleanup", "thumbs_down", false⟩]⟩
      (fun _ => some { agent_id := "cleanup" })
      (AIOutcome.raises "llm down") "cleanup" =
    (none,
      ⟨[⟨1, "cleanup", "thumbs_down", false⟩, ⟨2, "cleanup", "thumbs_down", false⟩,
        ⟨3, "cleanup", "thumbs_down", false⟩, ⟨4, "cleanup", "thumbs_up", false⟩,
        ⟨5, "cleanup", "thumbs_down", false⟩]⟩) := by
  refine ⟨⟨by decide, ?_⟩, ?_⟩
  · exact (feedback_marked_when_ai_returns (fun _ => false)
      ⟨[⟨1, "cleanup", "thumbs_down", false⟩, ⟨2, "cleanup", "thumbs_down", false⟩,
        ⟨3, "cleanup", "thumbs_down", false⟩, ⟨4, "cleanup", "thumbs_up", false⟩,
        ⟨5, "cleanup", "thumbs_down", false⟩]⟩
      (fun _ => some { agent_id := "cleanup" }) none "cleanup"
      { agent_id := "cleanup" } (by decide) rfl).1
      ⟨1, "cleanup", "thumbs_down", true⟩ (by decide) (by decide)
  · exact (feedback_marked_when_ai_returns (fun _ => false)
      ⟨[⟨1, "cleanup", "thumbs_down", false⟩, ⟨2, "cleanup", "thumbs_down", false⟩,
        ⟨3, "cleanup", "thumbs_down", false⟩, ⟨4, "cleanup", "thumbs_up", false⟩,
        ⟨5, "cleanup", "thumbs_down", false⟩]⟩
      (fun _ => some { agent_id := "cleanup" }) none "cleanup"
      { agent_id := "cleanup" } (by decide) rfl).2 "llm down"

/-! ## Scheduler (hermes/agents/scheduler.py) -/

def DIRECTOR_RUN_EVERY_N : Nat := 10

/-- The per-agent facts `_run_agent` consults on the registry. -/
structure AgentInfo where
  enabled : Bool
deriving Repr, DecidableEq

/-- The scheduler state driving the Director-review cadence. -/
structure SchedState where
  execution_count : Nat
deriving Repr, DecidableEq

/-- One pass of `AgentScheduler._run_agent`, the path shared by timer fires
and `trigger_agent`. Returns (state after, skipped, Director review ran).
The agent's `run()`, the ledger recording, and the evolution attempt do not
touch the execution counter and are abstracted away; the Director review is
a direct `director.run()`, so it leaves the counter as is. -/
def run_agent_step (registry : String → Option AgentInfo) (st : SchedState)
    (agent_id : String) : SchedState × Bool × Bool :=
  match registry agent_id with
  | none => (st, true, false)
  | some a =>
    if a.enabled = false then (st, true, false)
    else
      let st2 : SchedState := ⟨st.execution_count + 1⟩
      let director_ran :=
        decide (st2.execution_count % DIRECTOR_RUN_EVERY_N = 0) &&
          (match registry "director" with
           | some d => d.enabled
           | none => false)
      (st2, false, director_ran)

/-- A run of the shared execution path over a sequence of trigger/timer
fires; the second component counts Director reviews. -/
def run_agent_sequence (registry : String → Option AgentInfo)
    (st : SchedState) : List String → SchedState × Nat
  | [] => (st, 0)
  | i :: rest =>
    let step := run_agent_step registry st i
    let tail := run_agent_sequence registry step.1 rest
    (tail.1, (if step.2.2 then 1 else 0) + tail.2)

/-- Counter and Director-review count over a sequence of non-skipped runs,
from an arbitrary starting counter. -/
lemma run_agent_sequence_count (registry : String → Option AgentInfo)
    (d : AgentInfo) (hdir : registry "director" = some d)
    (hden : d.enabled = true) (ids : List String) :
    ∀ c : Nat, (∀ i ∈ ids, ∃ a, registry i = some a ∧ a.enabled = true) →
      (run_agent_sequence registry ⟨c⟩ ids).1.execution_count =
        c + ids.length ∧
      (run_agent_sequence registry ⟨c⟩ ids).2 =
        (c + ids.length) / DIRECTOR_RUN_EVERY_N - c / DIRECTOR_RUN_EVERY_N := by
  induction ids with
  | nil =>
    intro c _
    exact ⟨by simp [run_agent_sequence], by simp [run_agent_sequence]⟩
  | cons i rest ih =>
    intro c hall
    obtain ⟨a, ha, hae⟩ := hall i (List.mem_cons_self i rest)
    have hstep : run_agent_step registry ⟨c⟩ i =
        (⟨c + 1⟩, false, decide ((c + 1) % DIRECTOR_RUN_EVERY_N = 0)) := by
      simp [run_agent_step, ha, hae, hdir, hden]
    obtain ⟨h1, h2⟩ := ih (c + 1) (fun j hj => hall j (List.mem_cons_of_mem _ hj))
    constructor
    · simp only [run_agent_sequence, hstep, h1, List.length_cons]
      omega
    · simp only [run_agent_sequence, hstep, h2, List.length_cons]
      split_ifs with h <;>
        simp only [decide_eq_true_eq, DIRECTOR_RUN_EVERY_N] at h ⊢ <;> omega

/-- Claim C8: on the shared execution path, a missing or disabled agent is
skipped without touching the counter; a non-skipped run increments the
process-wide counter by exactly one, and (director present and enabled) the
Director review fires exactly when the incremented counter is a multiple of
10, the review itself leaving the counter as incremented; hence over any
sequence of non-skipped runs from a fresh counter the Director runs exactly
`n / 10` times — once at each multiple of 10 and never between. -/
theorem director_review_every_tenth (registry : String → Option AgentInfo)
    (d : AgentInfo) (hdir : registry "director" = some d)
    (hden : d.enabled = true) :
    (∀ (st : SchedState) (agent_id : String), registry agent_id = none →
      run_agent_step registry st agent_id = (st, true, false)) ∧
    (∀ (st : SchedState) (agent_id : String) (a : AgentInfo),
      registry agent_id = some a → a.enabled = false →
      run_agent_step registry st agent_id = (st, true, false)) ∧
    (∀ (st : SchedState) (agent_id : String) (a : AgentInfo),
      registry agent_id = some a → a.enabled = true →
      run_agent_step registry st agent_id =
        (⟨st.execution_count + 1⟩, false,
          decide ((st.execution_count + 1) % DIRECTOR_RUN_EVERY_N = 0))) ∧
    (∀ ids : List String,
      (∀ i ∈ ids, ∃ a, registry i = some a ∧ a.enabled = true) →
      (run_agent_sequence registry ⟨0⟩ ids).1.execution_count = ids.length ∧
      (run_agent_sequence registry ⟨0⟩ ids).2 =
        ids.length / DIRECTOR_RUN_EVERY_N) := by
  refine ⟨?_, ?_, ?_, ?_⟩
  · intro st agent_id h
    simp [run_agent_step, h]
  · intro st agent_id a ha hae
    simp [run_agent_step, ha, hae]
  · intro st agent_id a ha hae
    simp [run_agent_step, ha, hae, hdir, hden]
  · intro ids hall
    obtain ⟨h1, h2⟩ := run_agent_sequence_count registry d hdir hden ids 0 hall
    refine ⟨by simpa using h1, by simpa using h2⟩

/-- Witness for C8: with only `triage` and `director` registered and
enabled, the 10th execution triggers the Director review, and over 20
consecutive triage fires the Director runs exactly twice. -/
theorem director_review_every_tenth_witness :
    run_agent_step
        (fun i => if i = "director" then some ⟨true⟩
          else if i = "triage" then some ⟨true⟩ else none)
        ⟨9⟩ "triage" = (⟨10⟩, false, true) ∧
    (run_agent_sequence
        (fun i => if i = "director" then some ⟨true⟩
          else if i = "triage" then some ⟨true⟩ else none)
        ⟨0⟩ (List.replicate 20 "triage")).2 = 2 := by
  constructor
  · have h := (director_review_every_tenth
      (fun i => if i = "director" then some ⟨true⟩
        else if i = "triage" then some ⟨true⟩ else none)
      ⟨true⟩ rfl rfl).2.2.1 ⟨9⟩ "triage" ⟨true⟩ (by decide) rfl
    rw [h]
    decide
  · have h := ((director_review_every_tenth
      (fun i => if i = "director" then some ⟨true⟩
        else if i = "triage" then some ⟨true⟩ else none)
      ⟨true⟩ rfl rfl).2.2.2 (List.replicate 20 "triage")
      (by
        intro i hi
        rw [List.eq_of_mem_replicate hi]
        exact ⟨⟨true⟩, by decide, rfl⟩)).2
    rw [h]
    decide

/-! ## Cleanup agent (hermes/agents/cleanup.py) -/

/-- An email as the cleanup agent consumes it (only `id` is read by
`execute`; the remaining fields only flow into the LLM prompt). -/
structure EmailMsg where
  id : Nat
deriving Repr, DecidableEq

/-- One entry of the `ai.classify_junk` response — an untrusted dict whose
`id` and `action` keys may be absent. -/
structure JunkClassification where
  id : Option Nat
  action : Option String
deriving Repr, DecidableEq

/-- The batch mailbox mutations issued during one `execute()` call. -/
structure GmailCalls where
  archive_calls : List (List Nat)
  trash_calls : List (List Nat)
deriving Repr, DecidableEq

/-- Python truthiness of a config value, as `if auto_archive and ...` and
the `thresholds.get` defaults use it. -/
def PyVal.truthy : PyVal → Bool
  | .vBool b => b
  | .vInt n => decide (n ≠ 0)
  | .vFloat q => decide (q ≠ 0)
  | .vStr s => decide (s ≠ "")
  | .vNone => false
  | .vDict entries => !entries.isEmpty
  | .vList items => !items.isEmpty

/-- `CleanupAgent.execute`. `emails` is the mailbox fetch result for the
promotions/updates query (the `max_emails` threshold only caps that fetch)
and `classify` is the completion service's classification of the batch. -/
def cleanup_execute (thresholds : List (String × PyVal))
    (emails : List EmailMsg) (classify : List JunkClassification) :
    AgentResult × GmailCalls :=
  let auto_archive := (dget thresholds "auto_archive" (.vBool true)).truthy
  let auto_delete := (dget thresholds "auto_delete" (.vBool false)).truthy
  if emails.isEmpty then
    ({ success := true,
       data := [("message", .vStr "No newsletters or promotions to clean up")],
       emails_processed := 0,
       actions_taken := ["checked_promotions"] }, ⟨[], []⟩)
  else
    let valid_ids := emails.map (fun e => e.id)
    let classifications := classify.filter (fun c =>
      match c.id with
      | some i => decide (i ∈ valid_ids)
      | none => false)
    let to_archive := classifications.filter (fun c => c.action == some "archive")
    let to_delete := classifications.filter (fun c => c.action == some "delete")
    let archive_calls :=
      if auto_archive && !to_archive.isEmpty then
        [to_archive.filterMap (fun c => c.id)]
      else []
    let trash_calls :=
      if auto_delete && !to_delete.isEmpty then
        [to_delete.filterMap (fun c => c.id)]
      else []
    let actions := ["classified_junk"]
      ++ (if auto_archive && !to_archive.isEmpty then
            ["archived_" ++ toString to_archive.length] else [])
      ++ (if auto_delete && !to_delete.isEmpty then
            ["deleted_" ++ toString to_delete.length] else [])
    ({ success := true,
       data := [("scanned", .vInt (emails.length : Int)),
                ("archived",
                  .vInt (if auto_archive then (to_archive.length : Int) else 0)),
                ("deleted",
                  .vInt (if auto_delete then (to_delete.length : Int) else 0)),
                ("would_archive", .vInt (to_archive.length : Int)),
                ("would_delete", .vInt (to_delete.length : Int))],
       emails_processed := emails.length,
       actions_taken := actions }, ⟨archive_calls, trash_calls⟩)

/-- Claim C9: three promotional emails classified as archive/delete/keep
under `auto_archive=true, auto_delete=false` yield
`archived=1, deleted=0, would_delete=1`, one archive call with exactly the
id list `[1]`, and no trash call. -/
theorem cleanup_scenario_archive_only :
    cleanup_execute
      [("auto_archive", PyVal.vBool true), ("auto_delete", PyVal.vBool false)]
      [⟨1⟩, ⟨2⟩, ⟨3⟩]
      [⟨some 1, some "archive"⟩, ⟨some 2, some "delete"⟩,
        ⟨some 3, some "keep"⟩] =
    ({ success := true,
       data := [("scanned", PyVal.vInt 3), ("archived", PyVal.vInt 1),
                ("deleted", PyVal.vInt 0), ("would_archive", PyVal.vInt 1),
                ("would_delete", PyVal.vInt 1)],
       emails_processed := 3,
       actions_taken := ["classified_junk", "archived_1"] },
     ⟨[[1]], []⟩) := by
  rfl

end Hermes
